import Mathlib

set_option maxRecDepth 40000

/-!
Verification development for the marketplace-listing validator service
(`backend/models.py`, `backend/validator.py`, `backend/main.py`).

The Python code is shallowly embedded:

* Python strings are Lean `String`s; the string helpers used by the code
  (`str.split`, `str.split('.')`, `str.strip`, `str.startswith`,
  `str.replace`, slicing `[:n]`, substring membership) are reimplemented
  below over `List Char` with Python's semantics.
* `json.loads` (an external library capability) is an opaque parameter
  `parse : String → Option Json`; `none` models a raised
  `json.JSONDecodeError`.
* The OpenAI client call is an opaque parameter of type `ProducerResult`:
  either a returned message text or a raised transport exception.
* A raised Python exception is modelled as `Except.error msg` where `msg`
  stands for `str(e)`; in particular a `ZeroDivisionError` is
  `Except.error ("division by zero")`.
* pydantic model construction (`ValidationResponse(**data)`) is
  `ValidationResponse.ofJson`: required fields must be present, `status`
  and `severity` are closed literal sets, `category` is the closed
  six-value enum, `compliance_score` is a number in `[0, 10]`; a failure
  models the raised `ValidationError`.
* Floats are modelled as `ℚ` (the code only ever compares them and passes
  them through).
-/

/-! ## Python-faithful string primitives (over `List Char`) -/

/-- Python's whitespace test used by `str.split()` / `str.strip()`
(ASCII whitespace: space, tab, newline, carriage return, vertical tab,
form feed). -/
def pyWsChar (c : Char) : Bool :=
  c == ' ' || c == '\t' || c == '\n' || c == '\r' || c == '\x0b' || c == '\x0c'

/-- Boolean "is prefix of" on char lists (Python `str.startswith`). -/
def pfx : List Char → List Char → Bool
  | [], _ => true
  | _ :: _, [] => false
  | a :: as, b :: bs => decide (a = b) && pfx as bs

/-- Boolean substring test: does `sub` occur (contiguously) in the list?
(Python's `in` on strings.) -/
def containsAt (sub : List Char) : List Char → Bool
  | [] => pfx sub []
  | c :: cs => pfx sub (c :: cs) || containsAt sub cs

/-- One fuelled pass of Python `str.replace(pat, repl)`: replace every
non-overlapping occurrence of `pat`, scanning left to right.  The fuel is
always instantiated with the length of the scanned list, which suffices for
a non-empty pattern (the code only ever replaces non-empty patterns). -/
def replaceAux (pat repl : List Char) : Nat → List Char → List Char
  | _, [] => []
  | 0, cs => cs
  | n + 1, c :: cs =>
    if pfx pat (c :: cs) then repl ++ replaceAux pat repl n ((c :: cs).drop pat.length)
    else c :: replaceAux pat repl n cs

/-- Strip trailing Python whitespace. -/
def trimRightList (cs : List Char) : List Char :=
  (cs.reverse.dropWhile pyWsChar).reverse

/-- Python `str.strip()` on a char list. -/
def trimList (cs : List Char) : List Char :=
  trimRightList (cs.dropWhile pyWsChar)

/-- Python `text.split()` (split on whitespace runs, dropping empty
pieces): the accumulator holds the current token reversed. -/
def splitWsAux : List Char → List Char → List String
  | acc, [] => if acc.isEmpty then [] else [⟨acc.reverse⟩]
  | acc, c :: cs =>
    if pyWsChar c then
      if acc.isEmpty then splitWsAux [] cs else ⟨acc.reverse⟩ :: splitWsAux [] cs
    else splitWsAux (c :: acc) cs

/-- Python `text.split()`. -/
def pySplitWs (s : String) : List String := splitWsAux [] s.data

/-- Python `text.split('.')` (split on every period, keeping empty
pieces). -/
def splitDotAux : List Char → List Char → List String
  | acc, [] => [⟨acc.reverse⟩]
  | acc, c :: cs =>
    if c = '.' then ⟨acc.reverse⟩ :: splitDotAux [] cs else splitDotAux (c :: acc) cs

/-- Python `text.split('.')`. -/
def splitDot (s : String) : List String := splitDotAux [] s.data

/-- Python `s.strip()`. -/
def pyStrip (s : String) : String := ⟨trimList s.data⟩

/-- Python `s.startswith(pre)`. -/
def pyStartsWith (s pre : String) : Bool := pfx pre.data s.data

/-- Python `s.replace(pat, repl)` (all occurrences). -/
def pyReplace (s pat repl : String) : String :=
  ⟨replaceAux pat.data repl.data s.data.length s.data⟩

/-- Python slicing `s[:n]`. -/
def pyTake (s : String) (n : Nat) : String := ⟨s.data.take n⟩

/-- Python `sub in s`. -/
def pyContains (s sub : String) : Bool := containsAt sub.data s.data

/-! ## Data model (`backend/models.py`) -/

/-- `ValidationCategory(str, Enum)`: the closed six-value category set. -/
inductive ValidationCategory
  | REGULATORY_COMPLIANCE
  | CONTENT_QUALITY
  | USER_EXPERIENCE
  | BRAND_TONE
  | PROHIBITED_LANGUAGE
  | ETHICAL_STANDARDS
deriving DecidableEq, Repr

/-- The string value of each `ValidationCategory` member. -/
def ValidationCategory.value : ValidationCategory → String
  | .REGULATORY_COMPLIANCE => "Regulatory & Compliance"
  | .CONTENT_QUALITY => "Content Quality"
  | .USER_EXPERIENCE => "User Experience"
  | .BRAND_TONE => "Brand & Tone Alignment"
  | .PROHIBITED_LANGUAGE => "Prohibited Language"
  | .ETHICAL_STANDARDS => "Ethical Standards"

/-- `severity: Literal["low", "medium", "high"]`. -/
inductive Severity
  | low
  | medium
  | high
deriving DecidableEq, Repr

/-- `status: Literal["compliant", "non_compliant"]`. -/
inductive VStatus
  | compliant
  | non_compliant
deriving DecidableEq, Repr

/-- `ValidationIssue` (pydantic model, all fields required). -/
structure ValidationIssue where
  category : ValidationCategory
  rule_violated : String
  current_text : String
  issue : String
  suggested_fix : String
  severity : Severity
deriving DecidableEq, Repr

/-- `ValidationResponse` (pydantic model).  `compliance_score` is a float
in `[0,10]` (modelled as `ℚ`), `word_count` a Python int (modelled as
`ℤ`), `reading_level` optional. -/
structure ValidationResponse where
  status : VStatus
  compliance_score : ℚ
  issues : List ValidationIssue
  suggestions : String
  word_count : ℤ
  reading_level : Option String
deriving DecidableEq, Repr

/-! ## JSON values (result of `json.loads`) -/

/-- A decoded JSON value (what `json.loads` returns on success). -/
inductive Json
  | null
  | bool (b : Bool)
  | num (q : ℚ)
  | str (s : String)
  | arr (elems : List Json)
  | obj (fields : List (String × Json))

/-- Python truthiness of a decoded JSON value (used by
`not validation_data['reading_level']`). -/
def Json.falsy : Json → Bool
  | .null => true
  | .bool b => !b
  | .num q => decide (q = 0)
  | .str s => decide (s = "")
  | .arr xs => xs.isEmpty
  | .obj fs => fs.isEmpty

/-- First-match key lookup in a decoded JSON object (Python dicts decoded
by `json.loads` have unique keys). -/
def lookupKey : List (String × Json) → String → Option Json
  | [], _ => none
  | (k', v) :: fs, k => if k' = k then some v else lookupKey fs k

/-- Python dict item assignment `d[k] = v`: replace the value in place if
the key exists, else append the new key (insertion order preserved). -/
def setKey (fs : List (String × Json)) (k : String) (v : Json) : List (String × Json) :=
  if fs.any (fun p => p.1 = k) then fs.map (fun p => if p.1 = k then (k, v) else p)
  else fs ++ [(k, v)]

/-! ## pydantic construction (`ValidationResponse(**validation_data)`) -/

/-- Parse a JSON value as a `ValidationCategory` (exact enum value). -/
def categoryOfJson : Json → Option ValidationCategory
  | .str s =>
    if s = "Regulatory & Compliance" then some .REGULATORY_COMPLIANCE
    else if s = "Content Quality" then some .CONTENT_QUALITY
    else if s = "User Experience" then some .USER_EXPERIENCE
    else if s = "Brand & Tone Alignment" then some .BRAND_TONE
    else if s = "Prohibited Language" then some .PROHIBITED_LANGUAGE
    else if s = "Ethical Standards" then some .ETHICAL_STANDARDS
    else none
  | _ => none

/-- Parse a JSON value as a severity literal. -/
def severityOfJson : Json → Option Severity
  | .str s =>
    if s = "low" then some .low
    else if s = "medium" then some .medium
    else if s = "high" then some .high
    else none
  | _ => none

/-- Parse a JSON value as a status literal. -/
def statusOfJson : Json → Option VStatus
  | .str s =>
    if s = "compliant" then some .compliant
    else if s = "non_compliant" then some .non_compliant
    else none
  | _ => none

/-- A required string field. -/
def strField (fs : List (String × Json)) (k : String) : Option String :=
  match lookupKey fs k with
  | some (.str s) => some s
  | _ => none

/-- pydantic coercion of one issue object (all fields required;
`category` and `severity` must be in their closed sets). -/
def ValidationIssue.ofJson : Json → Option ValidationIssue
  | .obj fs => do
    let cv ← lookupKey fs ("category")
    let cat ← categoryOfJson cv
    let rv ← strField fs ("rule_violated")
    let ct ← strField fs ("current_text")
    let is' ← strField fs ("issue")
    let sf ← strField fs ("suggested_fix")
    let sv ← lookupKey fs ("severity")
    let sev ← severityOfJson sv
    pure ⟨cat, rv, ct, is', sf, sev⟩
  | _ => none

/-- The `status` field: required, closed literal set. -/
def statusField (fs : List (String × Json)) : Option VStatus :=
  (lookupKey fs ("status")).bind statusOfJson

/-- A required numeric field. -/
def numField (fs : List (String × Json)) (k : String) : Option ℚ :=
  match lookupKey fs k with
  | some (.num q) => some q
  | _ => none

/-- A required int field (a number with denominator 1). -/
def intField (fs : List (String × Json)) (k : String) : Option ℤ :=
  match lookupKey fs k with
  | some (.num q) => if q.den = 1 then some q.num else none
  | _ => none

/-- The `issues` field: optional (defaulting to `[]`); when present it must
be a sequence of objects each coercible to `ValidationIssue`. -/
def issuesField (fs : List (String × Json)) : Option (List ValidationIssue) :=
  match lookupKey fs ("issues") with
  | none => some []
  | some (.arr xs) => xs.mapM ValidationIssue.ofJson
  | some _ => none

/-- The optional `reading_level` field: absent or `null` give `none`. -/
def readingLevelField (fs : List (String × Json)) : Option (Option String) :=
  match lookupKey fs ("reading_level") with
  | none => some none
  | some .null => some none
  | some (.str s) => some (some s)
  | some _ => none

/-- pydantic construction of `ValidationResponse` from the decoded (and
mutated) dict; `none` models the raised `ValidationError`. -/
def ValidationResponse.ofJson : Json → Option ValidationResponse
  | .obj fs => do
    let st ← statusField fs
    let q ← numField fs ("compliance_score")
    if 0 ≤ q ∧ q ≤ 10 then do
      let issV ← issuesField fs
      let sg ← strField fs ("suggestions")
      let wc ← intField fs ("word_count")
      let rl ← readingLevelField fs
      pure ⟨st, q, issV, sg, wc, rl⟩
    else none
  | _ => none

/-! ## TextMetrics (`validator.py` lines 79-100) -/

/-- `_calculate_word_count`: `len(text.split())`. -/
def calculate_word_count (text : String) : Nat := (pySplitWs text).length

/-- `_estimate_reading_level`.  The code divides
`len(words) / len([s for s in sentences if s.strip()])` **before** knowing
the filtered sentence list is non-empty; `none` models the raised
`ZeroDivisionError` (reachable: words non-empty but every period-separated
chunk whitespace-only, e.g. `"."`). -/
def estimate_reading_level (text : String) : Option String :=
  let sentences := splitDot text
  let words := pySplitWs text
  if sentences.isEmpty || words.isEmpty then some "Unknown"
  else
    let nonEmptySentences := sentences.filter (fun s => ¬ (pyStrip s) = "")
    if nonEmptySentences.length = 0 then none
    else
      let avg_sentence_length : ℚ := (words.length : ℚ) / (nonEmptySentences.length : ℚ)
      let avg_word_length : ℚ :=
        ((words.map (fun w => (w.length : ℚ))).sum) / (words.length : ℚ)
      if avg_sentence_length > 20 ∨ avg_word_length > 6 then some "Grade 12+"
      else if avg_sentence_length > 15 ∨ avg_word_length > 5 then some "Grade 10-12"
      else some "Grade 8 or below"

/-! ## Prompt construction (`validator.py` lines 29-77, 108-111) -/

/-- The structured-output instruction block appended to the loaded
template (lines 36-59). -/
def structured_output_instruction : String :=
  "\n\nIMPORTANT: You must respond with a valid JSON object in the following format:\n\n\x7b\n    \"status\": \"compliant\" or \"non_compliant\",\n    \"compliance_score\": <float between 0-10>,\n    \"issues\": [\n        \x7b\n            \"category\": \"<one of: Regulatory & Compliance, Content Quality, User Experience, Brand & Tone Alignment, Prohibited Language, Ethical Standards>\",\n            \"rule_violated\": \"<specific rule name>\",\n            \"current_text\": \"<exact text from listing that violates the rule>\",\n            \"issue\": \"<description of the issue>\",\n            \"suggested_fix\": \"<specific suggested replacement>\",\n            \"severity\": \"<low, medium, or high>\"\n        \x7d\n    ],\n    \"suggestions\": \"<overall suggestions for improvement>\",\n    \"word_count\": <number of words in the listing>,\n    \"reading_level\": \"<estimated reading level>\"\n\x7d\n\nOnly return the JSON object, no other text.\n"

/-- `_get_fallback_prompt` (lines 66-77): the built-in minimal policy.
Note it contains neither the `\x7b\x7b listing \x7d\x7d` placeholder nor
the structured-output instruction block. -/
def get_fallback_prompt : String :=
  "You are an AI validator for credit card marketplace listings. Validate the listing against these standards:\n\n1. Regulatory & Compliance: APR disclosure, fee transparency, credit requirements\n2. Content Quality: Clear language, proper grammar, completeness\n3. User Experience: Appropriate length (100-300 words), readability\n4. Brand & Tone: Professional, factual, not overly promotional\n5. Prohibited Language: No misleading claims, exaggerated superlatives, vague terms\n6. Ethical Standards: Inclusive language, fair representation\n\nReturn a JSON object with validation results in the specified format."

/-- `_load_validation_prompt`: `template` is the content of the external
policy file when readable (`none` models `FileNotFoundError`, in which
case the fallback prompt is returned **without** the instruction
block). -/
def load_validation_prompt (template : Option String) : String :=
  match template with
  | some base_prompt => base_prompt ++ structured_output_instruction
  | none => get_fallback_prompt

/-- Line 110: `self.validation_prompt.replace("\x7b\x7b listing \x7d\x7d", listing)`. -/
def full_prompt (validation_prompt listing : String) : String :=
  pyReplace validation_prompt ("\x7b\x7b listing \x7d\x7d") listing

/-! ## The validation pipeline (`validator.py` lines 102-216) -/

/-- Behaviour of the external producer for one call: the message text it
returned, or the transport exception it raised (`str(e)`). -/
inductive ProducerResult
  | success (raw : String)
  | failure (errMsg : String)

/-- Lines 139-148: strip a leading markdown fence.  Note the code uses
`str.replace`, which removes **every** occurrence of the fence marker,
then strips whitespace; line 125 already stripped the raw text. -/
def cleanResponse (raw : String) : String :=
  let t := pyStrip raw
  if pyStartsWith t ("```json") then
    pyStrip (pyReplace (pyReplace t ("```json") ("")) ("```") (""))
  else if pyStartsWith t ("```") then
    pyStrip (pyReplace t ("```") (""))
  else t

/-- `_create_fallback_response` (lines 198-216).  The `Except.error`
branch is the `ZeroDivisionError` raised by `_estimate_reading_level`
while building the fallback. -/
def create_fallback_response (listing llm_response : String) : Except String ValidationResponse :=
  match estimate_reading_level listing with
  | none => .error ("division by zero")
  | some rl =>
    .ok
      { status := .non_compliant
        compliance_score := 5
        issues :=
          [{ category := .CONTENT_QUALITY
             rule_violated := "Response Format"
             current_text := "N/A"
             issue := "Unable to parse validation response"
             suggested_fix := "Please review the listing manually"
             severity := .medium }]
        suggestions :=
          "Validation completed but response format was unexpected: " ++ pyTake llm_response 200 ++ "..."
        word_count := (calculate_word_count listing : ℤ)
        reading_level := some rl }

/-- The emergency fallback built in the outer `except` handler
(lines 180-196); `emsg` is `str(e)` of the caught exception.  The
`Except.error` branch is again the `ZeroDivisionError` raised by
`_estimate_reading_level`, which then propagates out of
`validate_listing`. -/
def system_fallback (listing emsg : String) : Except String ValidationResponse :=
  match estimate_reading_level listing with
  | none => .error ("division by zero")
  | some rl =>
    .ok
      { status := .non_compliant
        compliance_score := 0
        issues :=
          [{ category := .CONTENT_QUALITY
             rule_violated := "System Error"
             current_text := "N/A"
             issue := "Validation failed: " ++ emsg
             suggested_fix := "Please try again or contact support"
             severity := .high }]
        suggestions := "System error occurred during validation. Please try again."
        word_count := (calculate_word_count listing : ℤ)
        reading_level := some rl }

/-- Lines 158-160: backfill `reading_level` when the key is absent or its
value falsy; calling `_estimate_reading_level` here can raise
(`Except.error`). -/
def backfillReadingLevel (listing : String) (fs1 : List (String × Json)) :
    Except String (List (String × Json)) :=
  match lookupKey fs1 ("reading_level") with
  | some v =>
    if v.falsy then
      match estimate_reading_level listing with
      | none => .error ("division by zero")
      | some rl => .ok (setKey fs1 ("reading_level") (.str rl))
    else .ok fs1
  | none =>
    match estimate_reading_level listing with
    | none => .error ("division by zero")
    | some rl => .ok (setKey fs1 ("reading_level") (.str rl))

/-- Lines 155-167: the parse-success branch.  Mutates the decoded dict
(`word_count` unconditionally overwritten, then `reading_level`
backfilled) and constructs the pydantic model.  Non-object values raise a
`TypeError` on item assignment; a failed construction raises a pydantic
`ValidationError`; both are modelled as `Except.error` (caught by the
outer handler). -/
def interpretParsed (listing : String) (j : Json) : Except String ValidationResponse :=
  match j with
  | .obj fs =>
    match backfillReadingLevel listing (setKey fs ("word_count") (.num (calculate_word_count listing : ℚ))) with
    | .error e => .error e
    | .ok fs2 =>
      match ValidationResponse.ofJson (.obj fs2) with
      | some r => .ok r
      | none => .error ("validation error for ValidationResponse")
  | _ => .error ("object does not support item assignment")

/-- The body of the outer `try` of `validate_listing` (lines 107-173):
call the producer, clean and parse its output, interpret it; a parse
failure goes to `_create_fallback_response`.  `Except.error e` models an
exception with `str(e) = e` escaping the `try` body. -/
def tryValidate (parse : String → Option Json) (producer : ProducerResult)
    (listing : String) : Except String ValidationResponse :=
  match producer with
  | .failure e => .error e
  | .success raw =>
    match parse (cleanResponse raw) with
    | none => create_fallback_response listing (cleanResponse raw)
    | some j => interpretParsed listing j

/-- `MarketplaceValidator.validate_listing` (lines 102-196): any exception
from the `try` body is caught and answered with the emergency fallback —
which can itself raise (`Except.error` escaping the whole method). -/
def validate_listing (parse : String → Option Json) (producer : ProducerResult)
    (listing : String) : Except String ValidationResponse :=
  match tryValidate parse producer listing with
  | .ok r => .ok r
  | .error e => system_fallback listing e

/-! ## The HTTP boundary (`backend/main.py`, `backend/models.py`) -/

/-- What the `/validate` endpoint answers with. -/
inductive EndpointResult
  | validationError
  | serviceUnavailable
  | internalError (detail : String)
  | ok (r : ValidationResponse)
deriving DecidableEq

/-- `ValidationRequest`: `listing: str = Field(..., min_length=10, max_length=5000)`. -/
def requestWithinBounds (listing : String) : Bool :=
  decide (10 ≤ listing.length ∧ listing.length ≤ 5000)

/-- The `/validate` endpoint (`main.py` lines 47-71): FastAPI rejects the
request at the schema boundary (HTTP 422) before the handler runs; the
handler answers 503 when the validator failed to initialise (missing
credential), and wraps any exception from the core in an HTTP 500 with
detail `f"Validation failed: \x7bstr(e)\x7d"`. -/
def endpoint_validate_listing (configured : Bool) (parse : String → Option Json)
    (producer : ProducerResult) (listing : String) : EndpointResult :=
  if requestWithinBounds listing then
    if configured then
      match validate_listing parse producer listing with
      | .ok r => .ok r
      | .error e => .internalError ("Validation failed: " ++ e)
    else .serviceUnavailable
  else .validationError

/-! ## Fence wrappers (for the fence-transparency claim) -/

/-- A language-tagged markdown fence around a payload. -/
def wrapTagged (p : String) : String := "```json\n" ++ p ++ "\n```"

/-- An untagged markdown fence around a payload. -/
def wrapUntagged (p : String) : String := "```\n" ++ p ++ "\n```"

/-! ## Concrete instances used by witnesses and counterexamples -/

/-- A producer whose output never parses as JSON. -/
def parseNone : String → Option Json := fun _ => none

/-- A JSON payload violating the shape rules: `status` outside the
literal set. -/
def badShapeJson : Json :=
  .obj [("status", .str "weird"), ("compliance_score", .num 5), ("suggestions", .str "s")]

/-- A parse function decoding the fixed text `"shape"` to `badShapeJson`. -/
def parseShape : String → Option Json :=
  fun s => if s = "shape" then some badShapeJson else none

/-- A fully well-formed producer payload (with a bogus `word_count` the
core must overwrite). -/
def goodPayload : Json :=
  .obj [("status", .str "compliant"), ("compliance_score", .num 7), ("issues", .arr []),
    ("suggestions", .str "ok"), ("word_count", .num 99), ("reading_level", .str "College")]

/-- A parse function decoding the fixed text `"x"` to `goodPayload`. -/
def parseGood : String → Option Json :=
  fun s => if s = "x" then some goodPayload else none

/-- The payload interior used to refute fence transparency: it contains a
bare fence marker. -/
def cexPayload : String := "x ``` y"

/-- The malformed-output fallback result for the listing `"Hello world."`
and producer text `"x"`. -/
def c2res : ValidationResponse :=
  { status := .non_compliant
    compliance_score := 5
    issues :=
      [{ category := .CONTENT_QUALITY
         rule_violated := "Response Format"
         current_text := "N/A"
         issue := "Unable to parse validation response"
         suggested_fix := "Please review the listing manually"
         severity := .medium }]
    suggestions := "Validation completed but response format was unexpected: x..."
    word_count := 2
    reading_level := some "Grade 10-12" }

/-- The malformed-output fallback result for the listing `"Hello world."`
and the fence-wrapped non-JSON producer output `"```json\nnot json"`:
note the suggestions carry the *cleaned* text `"not json"`. -/
def c3res : ValidationResponse :=
  { status := .non_compliant
    compliance_score := 5
    issues :=
      [{ category := .CONTENT_QUALITY
         rule_violated := "Response Format"
         current_text := "N/A"
         issue := "Unable to parse validation response"
         suggested_fix := "Please review the listing manually"
         severity := .medium }]
    suggestions := "Validation completed but response format was unexpected: not json..."
    word_count := 2
    reading_level := some "Grade 10-12" }

/-- The system fallback produced when the shape-invalid `badShapeJson`
payload makes pydantic construction fail for the listing
`"Hello world."`. -/
def c4res : ValidationResponse :=
  { status := .non_compliant
    compliance_score := 0
    issues :=
      [{ category := .CONTENT_QUALITY
         rule_violated := "System Error"
         current_text := "N/A"
         issue := "Validation failed: validation error for ValidationResponse"
         suggested_fix := "Please try again or contact support"
         severity := .high }]
    suggestions := "System error occurred during validation. Please try again."
    word_count := 2
    reading_level := some "Grade 10-12" }

/-- The characters of the untagged fence marker three-backtick string. -/
def fence : List Char := ['`', '`', '`']

/-- The characters of the language-tagged fence marker. -/
def fenceTag : List Char := ['`', '`', '`', 'j', 's', 'o', 'n']

/-! ## Basic lemmas about the embedded primitives -/

theorem optionBind_eq (x : Option α) (f : α → Option β) : x >>= f = x.bind f := rfl

theorem lookupKey_nil (k : String) : lookupKey [] k = none := rfl

theorem lookupKey_cons (p : String × Json) (fs : List (String × Json)) (k : String) :
    lookupKey (p :: fs) k = if p.1 = k then some p.2 else lookupKey fs k := by
  cases p
  rfl

theorem lookupKey_map_set (fs : List (String × Json)) (k : String) (v : Json)
    (h : fs.any (fun p => p.1 = k) = true) :
    lookupKey (fs.map (fun p => if p.1 = k then (k, v) else p)) k = some v := by
  induction fs with
  | nil => simp at h
  | cons p fs ih =>
    by_cases hp : p.1 = k
    · simp [lookupKey_cons, hp]
    · have h' : fs.any (fun p => p.1 = k) = true := by
        simp only [List.any_cons, Bool.or_eq_true, decide_eq_true_eq] at h
        rcases h with h | h
        · exact absurd h hp
        · exact h
      simp [lookupKey_cons, hp, ih h']

theorem lookupKey_map_ne (fs : List (String × Json)) (k k' : String) (v : Json)
    (h : k' ≠ k) :
    lookupKey (fs.map (fun p => if p.1 = k then (k, v) else p)) k' = lookupKey fs k' := by
  induction fs with
  | nil => rfl
  | cons p fs ih =>
    by_cases hp : p.1 = k
    · have hpk : ¬ p.1 = k' := by rw [hp]; exact fun hh => h hh.symm
      have hkk : ¬ k = k' := fun hh => h hh.symm
      simp [lookupKey_cons, hp, hpk, hkk, ih]
    · simp only [List.map_cons, if_neg hp, lookupKey_cons]
      rw [ih]

theorem lookupKey_append_single (fs : List (String × Json)) (k k' : String) (v : Json) :
    lookupKey (fs ++ [(k, v)]) k' =
      (lookupKey fs k').orElse (fun _ => if k = k' then some v else none) := by
  induction fs with
  | nil => simp [lookupKey_cons, lookupKey_nil, Option.orElse]
  | cons p fs ih =>
    by_cases hp : p.1 = k'
    · simp [lookupKey_cons, hp, Option.orElse]
    · simp only [List.cons_append, lookupKey_cons, if_neg hp]
      exact ih

theorem lookupKey_setKey_self (fs : List (String × Json)) (k : String) (v : Json) :
    lookupKey (setKey fs k v) k = some v := by
  unfold setKey
  split
  · exact lookupKey_map_set fs k v (by assumption)
  · rename_i h
    rw [lookupKey_append_single]
    have hnone : lookupKey fs k = none := by
      induction fs with
      | nil => rfl
      | cons p fs ih =>
        simp only [List.any_cons, Bool.or_eq_true, decide_eq_true_eq] at h
        push_neg at h
        simp [lookupKey_cons, h.1, ih (by simpa using h.2)]
    simp [hnone, Option.orElse]

theorem lookupKey_setKey_ne (fs : List (String × Json)) (k k' : String) (v : Json)
    (h : k' ≠ k) : lookupKey (setKey fs k v) k' = lookupKey fs k' := by
  unfold setKey
  split
  · exact lookupKey_map_ne fs k k' v h
  · rw [lookupKey_append_single]
    cases hl : lookupKey fs k' with
    | some w => simp [Option.orElse]
    | none =>
      have hne : ¬ k = k' := fun hh => h hh.symm
      simp [Option.orElse, hne]

/-- Full characterization of a successful pydantic construction. -/
theorem ofJson_obj_iff (fs : List (String × Json)) (r : ValidationResponse) :
    ValidationResponse.ofJson (.obj fs) = some r ↔
      statusField fs = some r.status ∧
      numField fs ("compliance_score") = some r.compliance_score ∧
      (0 ≤ r.compliance_score ∧ r.compliance_score ≤ 10) ∧
      issuesField fs = some r.issues ∧
      strField fs ("suggestions") = some r.suggestions ∧
      intField fs ("word_count") = some r.word_count ∧
      readingLevelField fs = some r.reading_level := by
  constructor
  · intro h
    unfold ValidationResponse.ofJson at h
    simp only [optionBind_eq, Option.bind_eq_some, Option.pure_def, Option.some.injEq] at h
    obtain ⟨st, hst, q, hq, h⟩ := h
    split at h
    · rename_i hrange
      simp only [optionBind_eq, Option.bind_eq_some, Option.pure_def, Option.some.injEq] at h
      obtain ⟨issV, hiss, sg, hsg, wc, hwc, rl, hrl, hr⟩ := h
      subst hr
      exact ⟨hst, hq, hrange, hiss, hsg, hwc, hrl⟩
    · simp at h
  · rintro ⟨h1, h2, h3, h4, h5, h6, h7⟩
    unfold ValidationResponse.ofJson
    simp only [optionBind_eq, h1, h2, h3, and_self, if_true, h4, h5, h6, h7,
      Option.some_bind, Option.pure_def]

/-! ## Claim C7: TextMetrics totality -/

/-- C7 (code_bug evidence): the spec says the text metrics are total with
no failure modes, but `_estimate_reading_level` divides by the number of
non-empty sentences *after* only checking the unfiltered split; on the
input `"."` the word list is `["."]` (non-empty) while every
period-separated chunk is empty, so the code raises `ZeroDivisionError`
(modelled as `none`). -/
theorem C7_reading_level_division_by_zero : estimate_reading_level (".") = none := rfl

/-! ## Claim C1: the entry point can fail to return a result -/

/-- C1 (code_bug evidence): for the listing `". . . . . ."` (11 characters,
accepted by the schema boundary) and a producer output that is not JSON,
the `ZeroDivisionError` raised while building the fallback escapes
`validate_listing` (the spec says a ValidationResult is always returned
outside the ConfigurationMissing state), and the endpoint answers with an
HTTP 500 internal error rather than a ValidationResult or a
service-unavailable signal. -/
theorem C1_fallback_crash_escapes :
    validate_listing parseNone (.success ("garbage")) (". . . . . .") =
      .error ("division by zero") ∧
    endpoint_validate_listing true parseNone (.success ("garbage")) (". . . . . .") =
      .internalError ("Validation failed: division by zero") := by
  exact ⟨rfl, rfl⟩

/-! ## Claim C5: prompt composition -/

/-- C5 (code_bug evidence): when the template resource is unavailable the
code substitutes `_get_fallback_prompt`, which contains no listing
placeholder and to which the structured-output instruction block is never
appended; the composed prompt therefore does not contain the listing text
at all (the spec requires the composed prompt to contain the verbatim
listing). -/
theorem C5_fallback_prompt_omits_listing :
    pyContains (full_prompt (load_validation_prompt none) ("Great credit card offer."))
        ("Great credit card offer.") = false ∧
    pyContains (load_validation_prompt none) ("\x7b\x7b listing \x7d\x7d") = false ∧
    pyContains (load_validation_prompt none) ("IMPORTANT: You must respond with a valid JSON object") = false := by
  exact ⟨rfl, rfl, rfl⟩

/-! ## Concrete evaluations of the reading-level heuristic

`Rat` arithmetic does not reduce definitionally, so concrete runs of
`_estimate_reading_level` are proved once here and reused. -/

theorem erl_hello_world_lower : estimate_reading_level ("hello world") = some ("Grade 8 or below") := by
  have h1 : splitDot ("hello world") = [("hello world")] := rfl
  have h2 : pySplitWs ("hello world") = [("hello"), ("world")] := rfl
  unfold estimate_reading_level
  rw [h1, h2]
  have h3 : List.filter (fun s => !decide (pyStrip s = "")) [("hello world")] = [("hello world")] := rfl
  have h4 : ("hello").length = 5 := rfl
  have h5 : ("world").length = 5 := rfl
  have h6 : pyStrip ("hello world") = ("hello world") := rfl
  norm_num [h3, h4, h5, h6]

theorem erl_hello_sentence : estimate_reading_level ("Hello world.") = some ("Grade 10-12") := by
  have h1 : splitDot ("Hello world.") = [("Hello world"), ("")] := rfl
  have h2 : pySplitWs ("Hello world.") = [("Hello"), ("world.")] := rfl
  unfold estimate_reading_level
  rw [h1, h2]
  have h3 : List.filter (fun s => !decide (pyStrip s = "")) [("Hello world"), ("")] = [("Hello world")] := rfl
  have h4 : ("Hello").length = 5 := rfl
  have h5 : ("world.").length = 6 := rfl
  have h6 : pyStrip ("Hello world") = ("Hello world") := rfl
  norm_num [h3, h4, h5, h6]

/-! ## Claim C6: reading level on degenerate inputs -/

/-- C6 (counterexample): `"hello world"` contains no period, yet the code
returns a grade, not `"Unknown"` — Python's `text.split('.')` never
returns an empty list, so the "no sentences" arm of the claim is
unreachable. -/
theorem C6_counterexample :
    pyContains ("hello world") (".") = false ∧
    estimate_reading_level ("hello world") ≠ some ("Unknown") := by
  refine ⟨rfl, ?_⟩
  rw [erl_hello_world_lower]
  simp

/-- C6 (amended): for every input string that contains no
whitespace-delimited words, `_estimate_reading_level` returns
`"Unknown"`. -/
theorem C6_amended_no_words_unknown (text : String) (h : pySplitWs text = []) :
    estimate_reading_level text = some ("Unknown") := by
  unfold estimate_reading_level
  rw [h]
  simp

/-- Witness for the amended C6 at the whitespace-only input `"   "`. -/
theorem C6_amended_witness :
    pySplitWs ("   ") = [] ∧ estimate_reading_level ("   ") = some ("Unknown") :=
  ⟨rfl, C6_amended_no_words_unknown ("   ") rfl⟩

/-! ## Claim C10: the request-schema boundary -/

/-- C10: a request reaches past the schema boundary (i.e. is not answered
with a 422 validation error) exactly when the listing length is between 10
and 5000 characters inclusive; outside the bounds the endpoint's answer is
the schema rejection no matter how the validator or the producer would
behave (the core is never invoked). -/
theorem C10_schema_bounds (configured : Bool) (parse : String → Option Json)
    (producer : ProducerResult) (listing : String) :
    endpoint_validate_listing configured parse producer listing = .validationError ↔
      ¬ (10 ≤ listing.length ∧ listing.length ≤ 5000) := by
  unfold endpoint_validate_listing
  cases hr : requestWithinBounds listing with
  | false =>
    have hb : ¬ (10 ≤ listing.length ∧ listing.length ≤ 5000) := by
      simpa [requestWithinBounds] using hr
    simp [hb]
  | true =>
    have hb : 10 ≤ listing.length ∧ listing.length ≤ 5000 := by
      simpa [requestWithinBounds] using hr
    cases configured
    · simp [hb]
    · cases h : validate_listing parse producer listing <;> simp [hb]

/-! ## Claim C2: word_count is always recomputed -/

theorem create_fallback_word_count (listing x : String) (r : ValidationResponse)
    (h : create_fallback_response listing x = .ok r) :
    r.word_count = (calculate_word_count listing : ℤ) := by
  unfold create_fallback_response at h
  cases he : estimate_reading_level listing with
  | none => rw [he] at h; simp at h
  | some rl =>
    rw [he] at h
    injection h with h'
    subst h'
    rfl

theorem system_fallback_word_count (listing e : String) (r : ValidationResponse)
    (h : system_fallback listing e = .ok r) :
    r.word_count = (calculate_word_count listing : ℤ) := by
  unfold system_fallback at h
  cases he : estimate_reading_level listing with
  | none => rw [he] at h; simp at h
  | some rl =>
    rw [he] at h
    injection h with h'
    subst h'
    rfl

theorem backfill_preserves (listing : String) (fs1 fs2 : List (String × Json))
    (h : backfillReadingLevel listing fs1 = .ok fs2) (k : String)
    (hk : k ≠ ("reading_level")) :
    lookupKey fs2 k = lookupKey fs1 k := by
  unfold backfillReadingLevel at h
  split at h
  · split at h
    · split at h
      · simp at h
      · injection h with h'
        subst h'
        exact lookupKey_setKey_ne _ _ _ _ hk
    · injection h with h'
      subst h'
      rfl
  · split at h
    · simp at h
    · injection h with h'
      subst h'
      exact lookupKey_setKey_ne _ _ _ _ hk

theorem interpretParsed_word_count (listing : String) (j : Json) (r : ValidationResponse)
    (h : interpretParsed listing j = .ok r) :
    r.word_count = (calculate_word_count listing : ℤ) := by
  cases j with
  | obj fs =>
    simp only [interpretParsed] at h
    split at h
    · simp at h
    · rename_i fs2 hb
      split at h
      · rename_i r' ho
        injection h with h'
        subst h'
        have hof := (ofJson_obj_iff fs2 r').mp ho
        have hint := hof.2.2.2.2.2.1
        have hlk : lookupKey fs2 ("word_count") =
            some (.num (calculate_word_count listing : ℚ)) := by
          rw [backfill_preserves listing _ _ hb ("word_count") (by decide)]
          exact lookupKey_setKey_self _ _ _
        unfold intField at hint
        rw [hlk] at hint
        simp only [Rat.den_natCast, if_true, Option.some.injEq, Rat.num_natCast] at hint
        exact hint.symm
      · simp at h
  | null => simp [interpretParsed] at h
  | bool b => simp [interpretParsed] at h
  | num q => simp [interpretParsed] at h
  | str s => simp [interpretParsed] at h
  | arr xs => simp [interpretParsed] at h

/-- C2: on every path that actually produces a ValidationResult
(successful parse, malformed-output fallback, or system fallback),
`word_count` equals the whitespace-token count of the original listing,
regardless of any `word_count` the producer's payload contained. -/
theorem C2_word_count_recomputed (parse : String → Option Json) (producer : ProducerResult)
    (listing : String) (r : ValidationResponse)
    (h : validate_listing parse producer listing = .ok r) :
    r.word_count = (calculate_word_count listing : ℤ) := by
  unfold validate_listing at h
  cases ht : tryValidate parse producer listing with
  | error e =>
    rw [ht] at h
    exact system_fallback_word_count listing e r h
  | ok r' =>
    rw [ht] at h
    have hr : r' = r := by injection h
    subst hr
    cases producer with
    | failure e => simp [tryValidate] at ht
    | success raw =>
      simp only [tryValidate] at ht
      cases hp : parse (cleanResponse raw) with
      | none =>
        rw [hp] at ht
        exact create_fallback_word_count listing (cleanResponse raw) r' ht
      | some j =>
        rw [hp] at ht
        exact interpretParsed_word_count listing j r' ht

/-- Witness for C2: a concrete malformed-output run whose result carries
the recomputed word count of `"Hello world."`. -/
theorem C2_witness :
    validate_listing parseNone (.success ("x")) ("Hello world.") = .ok c2res ∧
    c2res.word_count = (calculate_word_count ("Hello world.") : ℤ) := by
  have h1 : tryValidate parseNone (.success ("x")) ("Hello world.") =
      create_fallback_response ("Hello world.") ("x") := rfl
  have h2 : create_fallback_response ("Hello world.") ("x") = .ok c2res := by
    unfold create_fallback_response
    rw [erl_hello_sentence]
    rfl
  have hEval : validate_listing parseNone (.success ("x")) ("Hello world.") = .ok c2res := by
    unfold validate_listing
    rw [h1, h2]
  exact ⟨hEval, C2_word_count_recomputed parseNone (.success ("x")) ("Hello world.") c2res hEval⟩

/-! ## Bridging the Boolean substring test with Mathlib's infix order -/

theorem pfx_iff (p : List Char) : ∀ l : List Char, pfx p l = true ↔ p <+: l := by
  induction p with
  | nil => intro l; simp [pfx]
  | cons a as ih =>
    intro l
    cases l with
    | nil => simp [pfx]
    | cons b bs => simp [pfx, List.cons_prefix_cons, ih]

theorem containsAt_iff (sub : List Char) : ∀ l : List Char, containsAt sub l = true ↔ sub <:+: l := by
  intro l
  induction l with
  | nil => simp [containsAt, pfx_iff, List.prefix_nil, List.infix_nil]
  | cons c cs ih => simp [containsAt, pfx_iff, ih, List.infix_cons_iff]

theorem pyContains_append_middle (x y z : String) : pyContains (x ++ y ++ z) y = true := by
  unfold pyContains
  rw [containsAt_iff, String.data_append, String.data_append]
  exact List.infix_append _ _ _

/-! ## Behaviour of the reading-level backfill -/

theorem backfill_truthy (listing : String) (fs1 : List (String × Json)) (v : Json)
    (hl : lookupKey fs1 ("reading_level") = some v) (hv : v.falsy = false) :
    backfillReadingLevel listing fs1 = .ok fs1 := by
  unfold backfillReadingLevel
  simp [hl, hv]

theorem backfill_falsy (listing : String) (fs1 : List (String × Json)) (v : Json) (rl : String)
    (hl : lookupKey fs1 ("reading_level") = some v) (hv : v.falsy = true)
    (he : estimate_reading_level listing = some rl) :
    backfillReadingLevel listing fs1 = .ok (setKey fs1 ("reading_level") (.str rl)) := by
  unfold backfillReadingLevel
  simp [hl, hv, he]

theorem backfill_absent (listing : String) (fs1 : List (String × Json)) (rl : String)
    (hl : lookupKey fs1 ("reading_level") = none)
    (he : estimate_reading_level listing = some rl) :
    backfillReadingLevel listing fs1 = .ok (setKey fs1 ("reading_level") (.str rl)) := by
  unfold backfillReadingLevel
  rw [hl, he]

/-! ## Claim C3: the malformed-output fallback -/

/-- C3 (amended): whenever the fence-stripped producer text fails to parse
as JSON and the reading-level computation on the listing succeeds, the
result is the malformed-output fallback: status `non_compliant`, score
exactly 5, the single fixed Content Quality / "Response Format" issue, and
suggestions carrying the first 200 characters of the *trimmed,
fence-stripped* producer text (not the raw text), with `word_count` and
`reading_level` recomputed from the listing. -/
theorem C3_malformed_fallback (parse : String → Option Json) (raw listing rl : String)
    (hp : parse (cleanResponse raw) = none)
    (hr : estimate_reading_level listing = some rl) :
    validate_listing parse (.success raw) listing =
      .ok { status := .non_compliant
            compliance_score := 5
            issues :=
              [{ category := .CONTENT_QUALITY
                 rule_violated := "Response Format"
                 current_text := "N/A"
                 issue := "Unable to parse validation response"
                 suggested_fix := "Please review the listing manually"
                 severity := .medium }]
            suggestions := "Validation completed but response format was unexpected: " ++
              pyTake (cleanResponse raw) 200 ++ "..."
            word_count := (calculate_word_count listing : ℤ)
            reading_level := some rl } ∧
    pyContains ("Validation completed but response format was unexpected: " ++
      pyTake (cleanResponse raw) 200 ++ "...") (pyTake (cleanResponse raw) 200) = true := by
  constructor
  · have h1 : tryValidate parse (.success raw) listing =
        create_fallback_response listing (cleanResponse raw) := by
      simp only [tryValidate]
      rw [hp]
    unfold validate_listing
    rw [h1]
    unfold create_fallback_response
    rw [hr]
  · exact pyContains_append_middle _ _ _

/-- C3 (counterexample): with the producer output `"```json\nnot json"`
the code strips the fence *before* falling back, so the suggestions embed
the cleaned text `"not json"` and do **not** contain the first 200
characters of the raw producer text, contradicting the claim. -/
theorem C3_counterexample :
    validate_listing parseNone (.success ("```json\nnot json")) ("Hello world.") = .ok c3res ∧
    pyContains (c3res.suggestions) (pyTake ("```json\nnot json") 200) = false := by
  constructor
  · have h1 : tryValidate parseNone (.success ("```json\nnot json")) ("Hello world.") =
        create_fallback_response ("Hello world.") ("not json") := rfl
    unfold validate_listing
    rw [h1]
    unfold create_fallback_response
    rw [erl_hello_sentence]
    rfl
  · rfl

/-- Witness for the amended C3 at concrete inputs. -/
theorem C3_witness :
    validate_listing parseNone (.success ("notjson")) ("Hello world.") =
      .ok { status := .non_compliant
            compliance_score := 5
            issues :=
              [{ category := .CONTENT_QUALITY
                 rule_violated := "Response Format"
                 current_text := "N/A"
                 issue := "Unable to parse validation response"
                 suggested_fix := "Please review the listing manually"
                 severity := .medium }]
            suggestions := "Validation completed but response format was unexpected: " ++
              pyTake (cleanResponse ("notjson")) 200 ++ "..."
            word_count := (calculate_word_count ("Hello world.") : ℤ)
            reading_level := some ("Grade 10-12") } ∧
    pyContains ("Validation completed but response format was unexpected: " ++
      pyTake (cleanResponse ("notjson")) 200 ++ "...") (pyTake (cleanResponse ("notjson")) 200) = true :=
  C3_malformed_fallback parseNone ("notjson") ("Hello world.") ("Grade 10-12") rfl erl_hello_sentence

/-! ## Claim C4: ill-shaped JSON routes to the system fallback -/

/-- C4 (amended): a producer output that parses as JSON but whose
interpretation raises — a non-object value (`TypeError` on item
assignment) or a payload on which pydantic construction fails (status or
category or severity outside the closed sets, non-numeric or out-of-range
score, missing required field) — is routed to the **system** fallback:
compliance_score 0.0 and a single "System Error" issue, not the
malformed-output fallback. -/
theorem C4_shape_error_system_fallback (parse : String → Option Json)
    (raw listing e rl : String) (j : Json)
    (hp : parse (cleanResponse raw) = some j)
    (he : interpretParsed listing j = .error e)
    (hr : estimate_reading_level listing = some rl) :
    validate_listing parse (.success raw) listing =
      .ok { status := .non_compliant
            compliance_score := 0
            issues :=
              [{ category := .CONTENT_QUALITY
                 rule_violated := "System Error"
                 current_text := "N/A"
                 issue := "Validation failed: " ++ e
                 suggested_fix := "Please try again or contact support"
                 severity := .high }]
            suggestions := "System error occurred during validation. Please try again."
            word_count := (calculate_word_count listing : ℤ)
            reading_level := some rl } := by
  have h1 : tryValidate parse (.success raw) listing = .error e := by
    simp only [tryValidate]
    rw [hp]
    exact he
  unfold validate_listing
  rw [h1]
  unfold system_fallback
  rw [hr]

/-- The pydantic construction failure for `badShapeJson` after the dict
mutations (its `status` is outside the literal set). -/
theorem badShapeJson_interpret_fails :
    interpretParsed ("Hello world.") badShapeJson =
      .error ("validation error for ValidationResponse") := by
  simp only [interpretParsed, badShapeJson]
  have hb :=
    backfill_absent ("Hello world.")
      (setKey [(("status"), Json.str ("weird")), (("compliance_score"), Json.num 5),
        (("suggestions"), Json.str ("s"))] ("word_count")
        (Json.num (calculate_word_count ("Hello world.") : ℚ)))
      ("Grade 10-12") rfl erl_hello_sentence
  rw [hb]
  rfl

/-- C4 (counterexample): the payload
`{"status": "weird", "compliance_score": 5, "suggestions": "s"}` parses as
JSON but violates the shape rules; the claim says such output yields the
malformed-output fallback (score 5.0, rule "Response Format"), but the
code routes the pydantic `ValidationError` to the outer handler, yielding
the system fallback (score 0.0, rule "System Error"). -/
theorem C4_counterexample :
    validate_listing parseShape (.success ("shape")) ("Hello world.") = .ok c4res ∧
    c4res.compliance_score ≠ 5 ∧
    c4res.issues.map (fun i => i.rule_violated) = [("System Error")] := by
  refine ⟨?_, by norm_num [c4res], rfl⟩
  have h :=
    C4_shape_error_system_fallback parseShape ("shape") ("Hello world.")
      ("validation error for ValidationResponse") ("Grade 10-12") badShapeJson rfl
      badShapeJson_interpret_fails erl_hello_sentence
  rw [h]
  rfl

/-- Witness for the amended C4 at concrete inputs. -/
theorem C4_witness :
    validate_listing parseShape (.success ("shape")) ("Hello world.") =
      .ok { status := .non_compliant
            compliance_score := 0
            issues :=
              [{ category := .CONTENT_QUALITY
                 rule_violated := "System Error"
                 current_text := "N/A"
                 issue := "Validation failed: " ++ ("validation error for ValidationResponse")
                 suggested_fix := "Please try again or contact support"
                 severity := .high }]
            suggestions := "System error occurred during validation. Please try again."
            word_count := (calculate_word_count ("Hello world.") : ℤ)
            reading_level := some ("Grade 10-12") } :=
  C4_shape_error_system_fallback parseShape ("shape") ("Hello world.")
    ("validation error for ValidationResponse") ("Grade 10-12") badShapeJson rfl
    badShapeJson_interpret_fails erl_hello_sentence

/-! ## Claim C9: round-trip of a well-formed payload -/

/-- C9: a well-formed producer payload is returned unchanged in `status`,
`compliance_score`, `issues` (in order) and `suggestions`; `word_count` is
overwritten from the original listing no matter what the payload carried;
`reading_level` is preserved exactly when present and non-empty, and is
otherwise (absent, or empty string) overwritten with the locally computed
reading level of the listing. -/
theorem C9_roundtrip (parse : String → Option Json) (raw listing : String)
    (sv : Json) (st : VStatus) (hs : statusOfJson sv = some st)
    (q : ℚ) (hq : 0 ≤ q ∧ q ≤ 10)
    (issJ : List Json) (issV : List ValidationIssue)
    (hi : issJ.mapM ValidationIssue.ofJson = some issV)
    (sg : String) (wv : Json) (rl : String) (hrl : ¬ rl = "") (rlC : String)
    (hc : estimate_reading_level listing = some rlC) :
    (parse (cleanResponse raw) = some (.obj
        [(("status"), sv), (("compliance_score"), .num q), (("issues"), .arr issJ),
         (("suggestions"), .str sg), (("word_count"), wv), (("reading_level"), .str rl)]) →
      validate_listing parse (.success raw) listing =
        .ok ⟨st, q, issV, sg, (calculate_word_count listing : ℤ), some rl⟩) ∧
    (parse (cleanResponse raw) = some (.obj
        [(("status"), sv), (("compliance_score"), .num q), (("issues"), .arr issJ),
         (("suggestions"), .str sg), (("word_count"), wv)]) →
      validate_listing parse (.success raw) listing =
        .ok ⟨st, q, issV, sg, (calculate_word_count listing : ℤ), some rlC⟩) ∧
    (parse (cleanResponse raw) = some (.obj
        [(("status"), sv), (("compliance_score"), .num q), (("issues"), .arr issJ),
         (("suggestions"), .str sg), (("word_count"), wv), (("reading_level"), .str (""))]) →
      validate_listing parse (.success raw) listing =
        .ok ⟨st, q, issV, sg, (calculate_word_count listing : ℤ), some rlC⟩) := by
  have hi' : List.mapM.loop ValidationIssue.ofJson issJ [] = some issV := hi
  refine ⟨fun hp => ?_, fun hp => ?_, fun hp => ?_⟩
  · -- reading_level present and non-empty: preserved
    have hset : setKey
        [(("status"), sv), (("compliance_score"), .num q), (("issues"), .arr issJ),
         (("suggestions"), .str sg), (("word_count"), wv), (("reading_level"), .str rl)]
        ("word_count") (.num (calculate_word_count listing : ℚ)) =
        [(("status"), sv), (("compliance_score"), .num q), (("issues"), .arr issJ),
         (("suggestions"), .str sg), (("word_count"), .num (calculate_word_count listing : ℚ)),
         (("reading_level"), .str rl)] := by
      simp [setKey]
    have hbf := backfill_truthy listing
        [(("status"), sv), (("compliance_score"), .num q), (("issues"), .arr issJ),
         (("suggestions"), .str sg), (("word_count"), .num (calculate_word_count listing : ℚ)),
         (("reading_level"), .str rl)]
        (.str rl) (by simp [lookupKey_cons]) (by simp [Json.falsy, hrl])
    have ho : ValidationResponse.ofJson (.obj
        [(("status"), sv), (("compliance_score"), .num q), (("issues"), .arr issJ),
         (("suggestions"), .str sg), (("word_count"), .num (calculate_word_count listing : ℚ)),
         (("reading_level"), .str rl)]) =
        some ⟨st, q, issV, sg, (calculate_word_count listing : ℤ), some rl⟩ := by
      refine (ofJson_obj_iff _ _).mpr ⟨?_, ?_, ?_, ?_, ?_, ?_, ?_⟩ <;>
        simp [statusField, numField, issuesField, strField, intField, readingLevelField,
          lookupKey_cons, hs, hi, hi', hq, Rat.den_natCast, Rat.num_natCast]
    have hI : interpretParsed listing (.obj
        [(("status"), sv), (("compliance_score"), .num q), (("issues"), .arr issJ),
         (("suggestions"), .str sg), (("word_count"), wv), (("reading_level"), .str rl)]) =
        .ok ⟨st, q, issV, sg, (calculate_word_count listing : ℤ), some rl⟩ := by
      simp only [interpretParsed]
      rw [hset, hbf]
      simp only [ho]
    have h1 : tryValidate parse (.success raw) listing =
        .ok ⟨st, q, issV, sg, (calculate_word_count listing : ℤ), some rl⟩ := by
      simp only [tryValidate]
      rw [hp]
      exact hI
    unfold validate_listing
    rw [h1]
  · -- reading_level absent: backfilled from the listing
    have hset : setKey
        [(("status"), sv), (("compliance_score"), .num q), (("issues"), .arr issJ),
         (("suggestions"), .str sg), (("word_count"), wv)]
        ("word_count") (.num (calculate_word_count listing : ℚ)) =
        [(("status"), sv), (("compliance_score"), .num q), (("issues"), .arr issJ),
         (("suggestions"), .str sg), (("word_count"), .num (calculate_word_count listing : ℚ))] := by
      simp [setKey]
    have hbf := backfill_absent listing
        [(("status"), sv), (("compliance_score"), .num q), (("issues"), .arr issJ),
         (("suggestions"), .str sg), (("word_count"), .num (calculate_word_count listing : ℚ))]
        rlC (by simp [lookupKey_cons, lookupKey_nil]) hc
    have hset2 : setKey
        [(("status"), sv), (("compliance_score"), .num q), (("issues"), .arr issJ),
         (("suggestions"), .str sg), (("word_count"), .num (calculate_word_count listing : ℚ))]
        ("reading_level") (.str rlC) =
        [(("status"), sv), (("compliance_score"), .num q), (("issues"), .arr issJ),
         (("suggestions"), .str sg), (("word_count"), .num (calculate_word_count listing : ℚ)),
         (("reading_level"), .str rlC)] := by
      simp [setKey]
    have ho : ValidationResponse.ofJson (.obj
        [(("status"), sv), (("compliance_score"), .num q), (("issues"), .arr issJ),
         (("suggestions"), .str sg), (("word_count"), .num (calculate_word_count listing : ℚ)),
         (("reading_level"), .str rlC)]) =
        some ⟨st, q, issV, sg, (calculate_word_count listing : ℤ), some rlC⟩ := by
      refine (ofJson_obj_iff _ _).mpr ⟨?_, ?_, ?_, ?_, ?_, ?_, ?_⟩ <;>
        simp [statusField, numField, issuesField, strField, intField, readingLevelField,
          lookupKey_cons, hs, hi, hi', hq, Rat.den_natCast, Rat.num_natCast]
    have hI : interpretParsed listing (.obj
        [(("status"), sv), (("compliance_score"), .num q), (("issues"), .arr issJ),
         (("suggestions"), .str sg), (("word_count"), wv)]) =
        .ok ⟨st, q, issV, sg, (calculate_word_count listing : ℤ), some rlC⟩ := by
      simp only [interpretParsed]
      rw [hset, hbf]
      rw [hset2]
      simp only [ho]
    have h1 : tryValidate parse (.success raw) listing =
        .ok ⟨st, q, issV, sg, (calculate_word_count listing : ℤ), some rlC⟩ := by
      simp only [tryValidate]
      rw [hp]
      exact hI
    unfold validate_listing
    rw [h1]
  · -- reading_level present but empty: overwritten
    have hset : setKey
        [(("status"), sv), (("compliance_score"), .num q), (("issues"), .arr issJ),
         (("suggestions"), .str sg), (("word_count"), wv), (("reading_level"), .str (""))]
        ("word_count") (.num (calculate_word_count listing : ℚ)) =
        [(("status"), sv), (("compliance_score"), .num q), (("issues"), .arr issJ),
         (("suggestions"), .str sg), (("word_count"), .num (calculate_word_count listing : ℚ)),
         (("reading_level"), .str (""))] := by
      simp [setKey]
    have hbf := backfill_falsy listing
        [(("status"), sv), (("compliance_score"), .num q), (("issues"), .arr issJ),
         (("suggestions"), .str sg), (("word_count"), .num (calculate_word_count listing : ℚ)),
         (("reading_level"), .str (""))]
        (.str ("")) rlC (by simp [lookupKey_cons]) (by simp [Json.falsy]) hc
    have hset2 : setKey
        [(("status"), sv), (("compliance_score"), .num q), (("issues"), .arr issJ),
         (("suggestions"), .str sg), (("word_count"), .num (calculate_word_count listing : ℚ)),
         (("reading_level"), .str (""))]
        ("reading_level") (.str rlC) =
        [(("status"), sv), (("compliance_score"), .num q), (("issues"), .arr issJ),
         (("suggestions"), .str sg), (("word_count"), .num (calculate_word_count listing : ℚ)),
         (("reading_level"), .str rlC)] := by
      simp [setKey]
    have ho : ValidationResponse.ofJson (.obj
        [(("status"), sv), (("compliance_score"), .num q), (("issues"), .arr issJ),
         (("suggestions"), .str sg), (("word_count"), .num (calculate_word_count listing : ℚ)),
         (("reading_level"), .str rlC)]) =
        some ⟨st, q, issV, sg, (calculate_word_count listing : ℤ), some rlC⟩ := by
      refine (ofJson_obj_iff _ _).mpr ⟨?_, ?_, ?_, ?_, ?_, ?_, ?_⟩ <;>
        simp [statusField, numField, issuesField, strField, intField, readingLevelField,
          lookupKey_cons, hs, hi, hi', hq, Rat.den_natCast, Rat.num_natCast]
    have hI : interpretParsed listing (.obj
        [(("status"), sv), (("compliance_score"), .num q), (("issues"), .arr issJ),
         (("suggestions"), .str sg), (("word_count"), wv), (("reading_level"), .str (""))]) =
        .ok ⟨st, q, issV, sg, (calculate_word_count listing : ℤ), some rlC⟩ := by
      simp only [interpretParsed]
      rw [hset, hbf]
      rw [hset2]
      simp only [ho]
    have h1 : tryValidate parse (.success raw) listing =
        .ok ⟨st, q, issV, sg, (calculate_word_count listing : ℤ), some rlC⟩ := by
      simp only [tryValidate]
      rw [hp]
      exact hI
    unfold validate_listing
    rw [h1]

theorem q7_in_range : 0 ≤ (7 : ℚ) ∧ (7 : ℚ) ≤ 10 := by norm_num

/-- Witness for C9: a concrete well-formed payload (with bogus word_count
99) round-trips with `word_count` recomputed and `reading_level`
preserved. -/
theorem C9_witness :
    validate_listing parseGood (.success ("x")) ("Hello world.") =
      .ok ⟨.compliant, 7, [], ("ok"), (calculate_word_count ("Hello world.") : ℤ),
        some ("College")⟩ :=
  (C9_roundtrip parseGood ("x") ("Hello world.") (.str ("compliant")) .compliant rfl 7
    q7_in_range [] [] rfl ("ok") (.num 99) ("College") (by decide) ("Grade 10-12")
    erl_hello_sentence).1 rfl

/-! ## Claim C8: fence stripping -/

theorem pfx_append_self (p : List Char) : ∀ e, pfx p (p ++ e) = true := by
  induction p with
  | nil => intro e; rfl
  | cons a as ih => intro e; simp [pfx, ih]

theorem pfx_self (p : List Char) : pfx p p = true := by
  have := pfx_append_self p []
  rwa [List.append_nil] at this

theorem replaceAux_nil_list (p r : List Char) (n : Nat) : replaceAux p r n [] = [] := by
  cases n <;> rfl

theorem replaceAux_not_contains (p r : List Char) :
    ∀ n cs, containsAt p cs = false → replaceAux p r n cs = cs := by
  intro n
  induction n with
  | zero => intro cs _; cases cs <;> rfl
  | succ m ih =>
    intro cs h
    cases cs with
    | nil => rfl
    | cons c cs' =>
      simp only [containsAt, Bool.or_eq_false_iff] at h
      simp only [replaceAux, h.1, Bool.false_eq_true, if_false]
      rw [ih cs' h.2]

theorem infix_append_split {p l₁ l₂ : List Char} (h : p <:+: l₁ ++ l₂) :
    p <:+: l₁ ∨ p <:+: l₂ ∨
      ∃ s t, p = s ++ t ∧ s ≠ [] ∧ t ≠ [] ∧ s <:+ l₁ ∧ t <+: l₂ := by
  obtain ⟨a, b, hab⟩ := h
  rw [List.append_assoc] at hab
  rcases List.append_eq_append_iff.mp hab with ⟨a', h₁, h₂⟩ | ⟨c', h₁, h₂⟩
  · rcases List.append_eq_append_iff.mp h₂ with ⟨a'', g₁, g₂⟩ | ⟨c', g₁, g₂⟩
    · left
      exact ⟨a, a'', by rw [h₁, g₁, List.append_assoc]⟩
    · by_cases ha' : a' = []
      · subst ha'
        right; left
        exact ⟨[], b, by simp [g₂.symm, g₁]⟩
      · by_cases hc' : c' = []
        · subst hc'
          left
          refine ⟨a, [], ?_⟩
          rw [List.append_nil] at g₁
          rw [List.append_nil, h₁, g₁]
        · right; right
          exact ⟨a', c', g₁, ha', hc', ⟨a, h₁.symm⟩, ⟨b, g₂.symm⟩⟩
  · right; left
    exact ⟨c', b, by rw [h₂, List.append_assoc]⟩

theorem prefix_singleton {t : List Char} {a : Char} (h : t <+: [a]) : t = [] ∨ t = [a] := by
  obtain ⟨r, hr⟩ := h
  cases t with
  | nil => exact Or.inl rfl
  | cons b ts =>
    right
    simp only [List.cons_append, List.cons.injEq] at hr
    obtain ⟨rfl, hr2⟩ := hr
    have : ts = [] := by
      cases ts with
      | nil => rfl
      | cons x xs => simp at hr2
    rw [this]

theorem suffix_singleton {s : List Char} {a : Char} (h : s <:+ [a]) : s = [] ∨ s = [a] := by
  obtain ⟨r, hr⟩ := h
  cases r with
  | nil => exact Or.inr hr
  | cons x xs =>
    left
    simp only [List.cons_append, List.cons.injEq] at hr
    exact List.append_eq_nil.mp hr.2 |>.2

theorem suffix_concat_ends {s l : List Char} {c : Char} (h : s <:+ l ++ [c]) (hs : s ≠ []) :
    ∃ s', s = s' ++ [c] := by
  obtain ⟨t, ht⟩ := h
  rcases List.eq_nil_or_concat s with rfl | ⟨s', c', hsc⟩
  · exact absurd rfl hs
  · rw [List.concat_eq_append] at hsc
    subst hsc
    rw [← List.append_assoc] at ht
    have := (List.append_inj' ht (by rfl)).2
    simp only [List.cons.injEq] at this
    exact ⟨s', by rw [this.1]⟩

/-- The scan lemma: replacing `p` in `xs ++ p` removes exactly the final
occurrence when `p` occurs nowhere in `xs` and no non-empty suffix of `xs`
is a prefix of `p` (no straddling occurrence). -/
theorem replaceAux_scan (p : List Char) (hp : p ≠ []) :
    ∀ xs n, ¬ p <:+: xs → (∀ s, s <:+ xs → s ≠ [] → ¬ s <+: p) →
      xs.length + 1 ≤ n → replaceAux p [] n (xs ++ p) = xs := by
  intro xs
  induction xs with
  | nil =>
    intro n _ _ hn
    obtain ⟨m, rfl⟩ : ∃ m, n = m + 1 := ⟨n - 1, by omega⟩
    cases hpc : p with
    | nil => exact absurd hpc hp
    | cons q qs =>
      rw [List.nil_append, ← hpc]
      conv in replaceAux _ _ _ _ => rw [hpc]
      simp only [replaceAux, ← hpc, pfx_self, if_true]
      rw [List.drop_length, replaceAux_nil_list, List.nil_append]
  | cons x xs' ih =>
    intro n h1 h2 hn
    obtain ⟨m, rfl⟩ : ∃ m, n = m + 1 := ⟨n - 1, by omega⟩
    have hpfalse : pfx p (x :: (xs' ++ p)) = false := by
      rw [Bool.eq_false_iff]
      intro hcon
      have hpref : p <+: (x :: xs') ++ p := by
        rw [List.cons_append]
        exact (pfx_iff p _).mp hcon
      rcases le_or_lt p.length (x :: xs').length with hle | hlt
      · have heq : p = List.take p.length ((x :: xs') ++ p) :=
          List.prefix_iff_eq_take.mp hpref
        rw [List.take_append_eq_append_take, Nat.sub_eq_zero_of_le hle,
          List.take_zero, List.append_nil] at heq
        exact h1 ((List.prefix_iff_eq_take.mpr heq).isInfix)
      · have hxp : (x :: xs') <+: p := by
          rcases List.prefix_or_prefix_of_prefix hpref (List.prefix_append (x :: xs') p)
            with hc | hc
          · have := hc.length_le
            omega
          · exact hc
        exact h2 (x :: xs') (List.suffix_refl _) (by simp) hxp
    simp only [List.cons_append, replaceAux, List.append_eq, hpfalse, Bool.false_eq_true, if_false]
    rw [ih m (fun hc => h1 (List.infix_cons hc))
      (fun s hs hsne => h2 s (hs.trans (List.suffix_cons x xs')) hsne) (by simp at hn ⊢; omega)]

theorem trimRight_concat_false (l : List Char) (c : Char) (h : pyWsChar c = false) :
    trimRightList (l ++ [c]) = l ++ [c] := by
  unfold trimRightList
  rw [List.reverse_append]
  simp [List.dropWhile_cons, h]

theorem trimRight_concat_ws (l : List Char) (c : Char) (h : pyWsChar c = true) :
    trimRightList (l ++ [c]) = trimRightList l := by
  unfold trimRightList
  rw [List.reverse_append]
  simp [List.dropWhile_cons, h]

theorem trimList_cons_ws (l : List Char) (c : Char) (h : pyWsChar c = true) :
    trimList (c :: l) = trimList l := by
  unfold trimList
  simp [List.dropWhile_cons, h]

theorem trimList_cons_concat (a b : Char) (l : List Char)
    (ha : pyWsChar a = false) (hb : pyWsChar b = false) :
    trimList (a :: (l ++ [b])) = a :: (l ++ [b]) := by
  unfold trimList
  rw [List.dropWhile_cons]
  simp only [ha, Bool.false_eq_true, if_false]
  have : a :: (l ++ [b]) = (a :: l) ++ [b] := rfl
  rw [this, trimRight_concat_false _ _ hb]

theorem trimList_concat_ws (l : List Char) (c : Char) (h : pyWsChar c = true) :
    trimList (l ++ [c]) = trimList l := by
  unfold trimList
  rw [List.dropWhile_append]
  by_cases he : (l.dropWhile pyWsChar).isEmpty
  · rw [List.isEmpty_iff] at he
    simp [he, List.dropWhile_cons, h]
  · simp only [he, if_false]
    exact trimRight_concat_ws _ _ h

theorem trimList_infix (l : List Char) : trimList l <:+: l := by
  have h1 : trimList l <+: l.dropWhile pyWsChar := by
    unfold trimList trimRightList
    have hd := @List.dropWhile_suffix Char ((l.dropWhile pyWsChar).reverse) pyWsChar
    have hrp := @List.reverse_prefix Char ((l.dropWhile pyWsChar).reverse.dropWhile pyWsChar)
      ((l.dropWhile pyWsChar).reverse)
    have := hrp.mpr hd
    rwa [List.reverse_reverse] at this
  exact h1.isInfix.trans (List.dropWhile_suffix pyWsChar).isInfix

theorem newline_not_mem_fence : ('\n') ∉ fence := by decide

theorem newline_not_mem_fenceTag : ('\n') ∉ fenceTag := by decide

theorem suffix_region_ends (P s : List Char)
    (hs : s <:+ ('\n' :: (P ++ ['\n']))) (hne : s ≠ []) : ∃ s', s = s' ++ ['\n'] := by
  have hsh : ('\n' :: (P ++ ['\n'])) = ('\n' :: P) ++ ['\n'] := by simp
  rw [hsh] at hs
  exact suffix_concat_ends hs hne

theorem no_fence_region (P : List Char) (hP : containsAt fence P = false) :
    ¬ fence <:+: ('\n' :: (P ++ ['\n'])) := by
  intro h
  have h' : fence <:+: ['\n'] ++ (P ++ ['\n']) := by simpa using h
  rcases infix_append_split h' with h1 | h1 | ⟨s, t, hst, hsne, htne, hsuf, hpre⟩
  · have := h1.length_le
    simp [fence] at this
  · rcases infix_append_split h1 with h2 | h2 | ⟨s, t, hst, hsne, htne, hsuf, hpre⟩
    · exact absurd ((containsAt_iff _ _).mpr h2) (by simp [hP])
    · have := h2.length_le
      simp [fence] at this
    · rcases prefix_singleton hpre with rfl | rfl
      · exact htne rfl
      · have : ('\n') ∈ fence := by
          rw [hst]
          exact List.mem_append_right _ (by simp)
        exact newline_not_mem_fence this
  · rcases suffix_singleton hsuf with rfl | rfl
    · exact hsne rfl
    · have : ('\n') ∈ fence := by
        rw [hst]
        exact List.mem_append_left _ (by simp)
      exact newline_not_mem_fence this

theorem region_suffix_not_pfx (P p : List Char) (hnp : ('\n') ∉ p) :
    ∀ s, s <:+ ('\n' :: (P ++ ['\n'])) → s ≠ [] → ¬ s <+: p := by
  intro s hs hne hpre
  obtain ⟨s', rfl⟩ := suffix_region_ends P s hs hne
  exact hnp (hpre.subset (List.mem_append_right _ (by simp)))

theorem no_fenceTag_rest (P : List Char) (hP : containsAt fence P = false) :
    ¬ fenceTag <:+: (('\n' :: (P ++ ['\n'])) ++ fence) := by
  intro h
  rcases infix_append_split h with h1 | h1 | ⟨s, t, hst, hsne, htne, hsuf, hpre⟩
  · have hf : fence <+: fenceTag := ⟨['j', 's', 'o', 'n'], rfl⟩
    exact no_fence_region P hP (hf.isInfix.trans h1)
  · have := h1.length_le
    simp [fence, fenceTag] at this
  · obtain ⟨s', rfl⟩ := suffix_region_ends P s hsuf hsne
    have : ('\n') ∈ fenceTag := by
      rw [hst]
      exact List.mem_append_left _ (List.mem_append_right _ (by simp))
    exact newline_not_mem_fenceTag this

theorem replaceAux_head_match (q : Char) (qs r ys : List Char) (n : Nat) :
    replaceAux (q :: qs) r (n + 1) ((q :: qs) ++ ys) = r ++ replaceAux (q :: qs) r n ys := by
  have hpfx : pfx (q :: qs) ((q :: qs) ++ ys) = true := pfx_append_self _ _
  simp only [List.cons_append] at hpfx ⊢
  simp only [replaceAux, List.append_eq, hpfx, if_true]
  congr 1
  simp [List.drop_succ_cons, List.drop_left]

theorem wrapTagged_data (P : String) :
    (wrapTagged P).data = fenceTag ++ ('\n' :: (P.data ++ '\n' :: fence)) := by
  unfold wrapTagged
  rw [String.data_append, String.data_append]
  have h1 : ("```json\n").data = fenceTag ++ ['\n'] := rfl
  have h2 : ("\n```").data = ('\n') :: fence := rfl
  rw [h1, h2]
  simp [List.append_assoc]

theorem wrapUntagged_data (P : String) :
    (wrapUntagged P).data = fence ++ ('\n' :: (P.data ++ '\n' :: fence)) := by
  unfold wrapUntagged
  rw [String.data_append, String.data_append]
  have h1 : ("```\n").data = fence ++ ['\n'] := rfl
  have h2 : ("\n```").data = ('\n') :: fence := rfl
  rw [h1, h2]
  simp [List.append_assoc]

theorem trim_wrapTagged (P : String) :
    trimList ((wrapTagged P).data) = (wrapTagged P).data := by
  rw [wrapTagged_data]
  have hshape : fenceTag ++ ('\n' :: (P.data ++ '\n' :: fence)) =
      ('`') :: ((['`', '`', 'j', 's', 'o', 'n', '\n'] ++ P.data ++ ['\n', '`', '`']) ++ ['`']) := by
    simp [fenceTag, fence, List.append_assoc]
  rw [hshape]
  exact trimList_cons_concat _ _ _ rfl rfl

theorem trim_wrapUntagged (P : String) :
    trimList ((wrapUntagged P).data) = (wrapUntagged P).data := by
  rw [wrapUntagged_data]
  have hshape : fence ++ ('\n' :: (P.data ++ '\n' :: fence)) =
      ('`') :: ((['`', '`', '\n'] ++ P.data ++ ['\n', '`', '`']) ++ ['`']) := by
    simp [fence, List.append_assoc]
  rw [hshape]
  exact trimList_cons_concat _ _ _ rfl rfl

theorem replaceAux_fenceTag_head (r ys : List Char) (n : Nat) :
    replaceAux fenceTag r (n + 1) (fenceTag ++ ys) = r ++ replaceAux fenceTag r n ys :=
  replaceAux_head_match ('`') (['`', '`', 'j', 's', 'o', 'n']) r ys n

theorem replaceAux_fence_head (r ys : List Char) (n : Nat) :
    replaceAux fence r (n + 1) (fence ++ ys) = r ++ replaceAux fence r n ys :=
  replaceAux_head_match ('`') (['`', '`']) r ys n

theorem cleanResponse_wrapTagged (P : String) (hP : containsAt fence P.data = false) :
    cleanResponse (wrapTagged P) = pyStrip P := by
  have htrim : pyStrip (wrapTagged P) = wrapTagged P := by
    show (⟨trimList (wrapTagged P).data⟩ : String) = wrapTagged P
    rw [trim_wrapTagged]
  have hsw : pyStartsWith (wrapTagged P) ("```json") = true := by
    show pfx (("```json").data) (wrapTagged P).data = true
    rw [wrapTagged_data]
    exact pfx_append_self fenceTag _
  have hA2 : containsAt fenceTag ('\n' :: (P.data ++ '\n' :: fence)) = false := by
    rw [Bool.eq_false_iff]
    intro hcon
    have h := (containsAt_iff _ _).mp hcon
    have hsh : ('\n' :: (P.data ++ '\n' :: fence)) = ('\n' :: (P.data ++ ['\n'])) ++ fence := by
      simp
    rw [hsh] at h
    exact no_fenceTag_rest P.data hP h
  have h1 : pyReplace (wrapTagged P) ("```json") ("") = ⟨'\n' :: (P.data ++ '\n' :: fence)⟩ := by
    show (⟨replaceAux (("```json").data) (("").data) ((wrapTagged P).data.length)
      ((wrapTagged P).data)⟩ : String) = _
    congr 1
    rw [show ("```json").data = fenceTag from rfl, show ("").data = ([] : List Char) from rfl,
      wrapTagged_data]
    have hN : (fenceTag ++ ('\n' :: (P.data ++ '\n' :: fence))).length =
        (('\n' :: (P.data ++ '\n' :: fence)).length + 6) + 1 := by
      simp only [List.length_append, fenceTag, List.length_cons, List.length_nil]
      omega
    rw [hN, replaceAux_fenceTag_head, replaceAux_not_contains fenceTag [] _ _ hA2,
      List.nil_append]
  have h2 : pyReplace (⟨'\n' :: (P.data ++ '\n' :: fence)⟩ : String) ("```") ("") =
      ⟨'\n' :: (P.data ++ ['\n'])⟩ := by
    show (⟨replaceAux (("```").data) (("").data) (('\n' :: (P.data ++ '\n' :: fence)).length)
      ('\n' :: (P.data ++ '\n' :: fence))⟩ : String) = _
    congr 1
    rw [show ("```").data = fence from rfl, show ("").data = ([] : List Char) from rfl]
    have hsh : ('\n' :: (P.data ++ '\n' :: fence)) = ('\n' :: (P.data ++ ['\n'])) ++ fence := by
      simp
    rw [hsh]
    apply replaceAux_scan fence (by simp [fence]) _ _ (no_fence_region P.data hP)
      (region_suffix_not_pfx P.data fence newline_not_mem_fence)
    simp only [List.length_append, fence, List.length_cons, List.length_nil]
    omega
  have h3 : pyStrip (⟨'\n' :: (P.data ++ ['\n'])⟩ : String) = pyStrip P := by
    show (⟨trimList ('\n' :: (P.data ++ ['\n']))⟩ : String) = (⟨trimList P.data⟩ : String)
    congr 1
    rw [trimList_cons_ws (P.data ++ ['\n']) ('\n') rfl, trimList_concat_ws P.data ('\n') rfl]
  simp only [cleanResponse]
  rw [htrim, if_pos hsw, h1, h2, h3]

theorem cleanResponse_wrapUntagged (P : String) (hP : containsAt fence P.data = false) :
    cleanResponse (wrapUntagged P) = pyStrip P := by
  have htrim : pyStrip (wrapUntagged P) = wrapUntagged P := by
    show (⟨trimList (wrapUntagged P).data⟩ : String) = wrapUntagged P
    rw [trim_wrapUntagged]
  have hswT : pyStartsWith (wrapUntagged P) ("```json") = false := by
    show pfx (("```json").data) (wrapUntagged P).data = false
    rw [wrapUntagged_data]
    have hsh : fence ++ ('\n' :: (P.data ++ '\n' :: fence)) =
        ('`') :: ('`') :: ('`') :: ('\n') :: (P.data ++ '\n' :: fence) := by
      simp [fence]
    rw [hsh]
    rfl
  have hsw : pyStartsWith (wrapUntagged P) ("```") = true := by
    show pfx (("```").data) (wrapUntagged P).data = true
    rw [wrapUntagged_data]
    exact pfx_append_self fence _
  have h1 : pyReplace (wrapUntagged P) ("```") ("") = ⟨'\n' :: (P.data ++ ['\n'])⟩ := by
    show (⟨replaceAux (("```").data) (("").data) ((wrapUntagged P).data.length)
      ((wrapUntagged P).data)⟩ : String) = _
    congr 1
    rw [show ("```").data = fence from rfl, show ("").data = ([] : List Char) from rfl,
      wrapUntagged_data]
    have hN : (fence ++ ('\n' :: (P.data ++ '\n' :: fence))).length =
        (('\n' :: (P.data ++ '\n' :: fence)).length + 2) + 1 := by
      simp only [List.length_append, fence, List.length_cons, List.length_nil]
      omega
    rw [hN, replaceAux_fence_head]
    have hsh : ('\n' :: (P.data ++ '\n' :: fence)) = ('\n' :: (P.data ++ ['\n'])) ++ fence := by
      simp
    rw [hsh]
    rw [replaceAux_scan fence (by simp [fence]) _ _ (no_fence_region P.data hP)
      (region_suffix_not_pfx P.data fence newline_not_mem_fence) ?_, List.nil_append]
    simp only [List.length_append, fence, List.length_cons, List.length_nil]
    omega
  have h3 : pyStrip (⟨'\n' :: (P.data ++ ['\n'])⟩ : String) = pyStrip P := by
    show (⟨trimList ('\n' :: (P.data ++ ['\n']))⟩ : String) = (⟨trimList P.data⟩ : String)
    congr 1
    rw [trimList_cons_ws (P.data ++ ['\n']) ('\n') rfl, trimList_concat_ws P.data ('\n') rfl]
  simp only [cleanResponse]
  rw [htrim, if_neg (by simp [hswT]), if_pos hsw, h1, h3]

theorem cleanResponse_plain (P : String) (hP : containsAt fence P.data = false) :
    cleanResponse P = pyStrip P := by
  have htrim_infix : trimList P.data <:+: P.data := trimList_infix P.data
  have hnf : ∀ p : List Char, fence <+: p → pfx p (trimList P.data) = false := by
    intro p hf
    rw [Bool.eq_false_iff]
    intro hcon
    have hpre : p <+: trimList P.data := (pfx_iff _ _).mp hcon
    have : fence <:+: P.data := ((hf.trans hpre).isInfix).trans htrim_infix
    exact absurd ((containsAt_iff _ _).mpr this) (by simp [hP])
  have hs1 : pyStartsWith (pyStrip P) ("```json") = false :=
    hnf fenceTag ⟨['j', 's', 'o', 'n'], rfl⟩
  have hs2 : pyStartsWith (pyStrip P) ("```") = false :=
    hnf fence ⟨[], List.append_nil _⟩
  simp only [cleanResponse]
  rw [if_neg (by simp [hs1]), if_neg (by simp [hs2])]

/-- C8 (amended): for every payload P that does not contain the
three-backtick fence-marker substring, interpreting P wrapped in a
markdown fence (language-tagged or untagged) yields the same result as
interpreting P unwrapped, for every parse behaviour and listing. -/
theorem C8_fence_transparent (parse : String → Option Json) (listing P : String)
    (hP : pyContains P ("```") = false) :
    validate_listing parse (.success (wrapTagged P)) listing =
      validate_listing parse (.success P) listing ∧
    validate_listing parse (.success (wrapUntagged P)) listing =
      validate_listing parse (.success P) listing := by
  have hP' : containsAt fence P.data = false := hP
  have ht := cleanResponse_wrapTagged P hP'
  have hu := cleanResponse_wrapUntagged P hP'
  have hpl := cleanResponse_plain P hP'
  constructor
  · unfold validate_listing
    simp only [tryValidate]
    rw [ht, hpl]
  · unfold validate_listing
    simp only [tryValidate]
    rw [hu, hpl]

/-- Witness for the amended C8 at a concrete fence-free payload. -/
theorem C8_witness :
    (validate_listing parseNone (.success (wrapTagged ("hello"))) ("Hello world.") =
      validate_listing parseNone (.success ("hello")) ("Hello world.")) ∧
    (validate_listing parseNone (.success (wrapUntagged ("hello"))) ("Hello world.") =
      validate_listing parseNone (.success ("hello")) ("Hello world.")) :=
  C8_fence_transparent parseNone ("Hello world.") ("hello") rfl

/-- C8 (counterexample): the code removes fence markers with
`str.replace`, which also deletes a fence marker *inside* the payload:
wrapping `"x ``` y"` changes the interpreted result, refuting "only the
fence markers are removed, never interior content". -/
theorem C8_counterexample :
    validate_listing parseNone (.success (wrapTagged cexPayload)) ("Hello world.") ≠
      validate_listing parseNone (.success cexPayload) ("Hello world.") := by
  have h1 : validate_listing parseNone (.success (wrapTagged cexPayload)) ("Hello world.") =
      .ok { status := .non_compliant
            compliance_score := 5
            issues :=
              [{ category := .CONTENT_QUALITY
                 rule_violated := "Response Format"
                 current_text := "N/A"
                 issue := "Unable to parse validation response"
                 suggested_fix := "Please review the listing manually"
                 severity := .medium }]
            suggestions := "Validation completed but response format was unexpected: x  y..."
            word_count := 2
            reading_level := some "Grade 10-12" } := by
    have ha : tryValidate parseNone (.success (wrapTagged cexPayload)) ("Hello world.") =
        create_fallback_response ("Hello world.") ("x  y") := rfl
    unfold validate_listing
    rw [ha]
    unfold create_fallback_response
    rw [erl_hello_sentence]
    rfl
  have h2 : validate_listing parseNone (.success cexPayload) ("Hello world.") =
      .ok { status := .non_compliant
            compliance_score := 5
            issues :=
              [{ category := .CONTENT_QUALITY
                 rule_violated := "Response Format"
                 current_text := "N/A"
                 issue := "Unable to parse validation response"
                 suggested_fix := "Please review the listing manually"
                 severity := .medium }]
            suggestions := "Validation completed but response format was unexpected: x ``` y..."
            word_count := 2
            reading_level := some "Grade 10-12" } := by
    have ha : tryValidate parseNone (.success cexPayload) ("Hello world.") =
        create_fallback_response ("Hello world.") ("x ``` y") := rfl
    unfold validate_listing
    rw [ha]
    unfold create_fallback_response
    rw [erl_hello_sentence]
    rfl
  rw [h1, h2]
  simp
